import Mathlib

/-!
Shallow embedding of the player-disambiguation core of the soccer_agent
repository (src/src/soccer_agent.py and src/src/data_collector.py).

Python string primitives (`str.strip`, `str.lower`, substring membership,
`str.split`, `int(...)`) are modelled over ASCII character lists so that every
definition is executable by the kernel.
-/

/-- ASCII model of the whitespace class used by Python `str.strip` / `str.split`. -/
def isSpaceChar (c : Char) : Bool :=
  c = ' ' || c = '\t' || c = '\n' || c = '\r'

/-- ASCII model of Python `str.lower` on a single character. -/
def lowerChar (c : Char) : Char :=
  if 'A' ≤ c ∧ c ≤ 'Z' then Char.ofNat (c.toNat + 32) else c

/-- ASCII model of Python `str.lower`. -/
def pyLower (s : String) : String :=
  ⟨s.toList.map lowerChar⟩

/-- ASCII model of Python `str.strip`: drop leading and trailing whitespace. -/
def pyStrip (s : String) : String :=
  ⟨((s.toList.dropWhile isSpaceChar).reverse.dropWhile isSpaceChar).reverse⟩

/-- Model of the Python substring test `needle in hay`. -/
def subOf (needle : List Char) : List Char → Bool
  | [] => needle.isEmpty
  | c :: t => needle.isPrefixOf (c :: t) || subOf needle t

/-- Helper for `splitWords`: accumulate the current word while scanning. -/
def splitWordsAux : List Char → List Char → List (List Char)
  | [], acc => if acc.isEmpty then [] else [acc.reverse]
  | c :: t, acc =>
      if isSpaceChar c then
        if acc.isEmpty then splitWordsAux t [] else acc.reverse :: splitWordsAux t []
      else splitWordsAux t (c :: acc)

/-- ASCII model of Python `str.split()` (split on whitespace runs). -/
def splitWords (cs : List Char) : List (List Char) :=
  splitWordsAux cs []

/-- Value of a nonempty all-digit character list. -/
def digitsToNat (cs : List Char) : Option Nat :=
  if cs ≠ [] ∧ cs.all (·.isDigit) then
    some (cs.foldl (fun a c => a * 10 + (c.toNat - 48)) 0)
  else none

/-- Model of Python `int(s)`: optional sign followed by digits, else ValueError
(`none`). -/
def parsePyInt (s : String) : Option Int :=
  match (pyStrip s).toList with
  | '-' :: rest => (digitsToNat rest).map (fun n => -(n : Int))
  | '+' :: rest => (digitsToNat rest).map (fun n => (n : Int))
  | cs => (digitsToNat cs).map (fun n => (n : Int))

/-- `ConversationState` enum of soccer_agent.py. -/
inductive ConversationState where
  | SEARCHING
  | SHOWING_RESULTS
  | CONFIRMING_SELECTION
  | COMPLETED
  | ERROR
deriving DecidableEq, Repr

/-- `PlayerSearchResult` dataclass of data_collector.py.  The float confidence
score only ever takes the four exact values 1.0, 0.8, 0.6, 0.0, modelled in ℚ. -/
structure PlayerSearchResult where
  player_id : String
  player_name : String
  club : String
  confidence_score : ℚ
deriving DecidableEq, Repr

instance : Inhabited PlayerSearchResult := ⟨⟨"", "", "", 0⟩⟩

/-- Opaque report-data blob (the Transfermarkt payload stored per session). -/
abbrev PlayerData := String

/-- The rational value 1.0 returned by `_calculate_name_similarity` for an
exact match. -/
def simExact : ℚ := 1

/-- The rational value 0.8 (= 4/5) returned by `_calculate_name_similarity`
for a containment match. -/
def simContains : ℚ := ⟨4, 5, by decide, by decide⟩

/-- The rational value 0.6 (= 3/5) returned by `_calculate_name_similarity`
for a shared-word match. -/
def simWord : ℚ := ⟨3, 5, by decide, by decide⟩

/-- `WebScraper._calculate_name_similarity` of data_collector.py: exact match
1.0, substring containment either way 0.8, shared word 0.6, otherwise 0.0. -/
def calculate_name_similarity (search_name player_name : String) : ℚ :=
  let search_lower := pyStrip (pyLower search_name)
  let player_lower := pyStrip (pyLower player_name)
  if search_lower = player_lower then simExact
  else if subOf search_lower.toList player_lower.toList
          || subOf player_lower.toList search_lower.toList then simContains
  else if (splitWords search_lower.toList).any
            (fun w => (splitWords player_lower.toList).contains w) then simWord
  else 0

/-- One entry of the provider response consumed by `_search_players`: the
fields read out of each JSON object (`id`, `playerName`, `name`, `club`). -/
structure RawPlayer where
  id : String
  playerName : String
  nameField : String
  club : String
deriving DecidableEq, Repr

/-- Building one `PlayerSearchResult` from a provider entry, as in the loop of
`_search_players`: display data from `playerName`/`club`, confidence from the
similarity of the query against the `name` field. -/
def rawToResult (query : String) (p : RawPlayer) : PlayerSearchResult :=
  { player_id := p.id
    player_name := p.playerName
    club := p.club
    confidence_score := calculate_name_similarity query p.nameField }

/-- Descending-confidence comparison used by the sort in `_search_players`
(`key=lambda x: x.confidence_score, reverse=True`). -/
def confGe (a b : PlayerSearchResult) : Prop :=
  b.confidence_score ≤ a.confidence_score

instance : DecidableRel confGe := fun a b =>
  inferInstanceAs (Decidable (b.confidence_score ≤ a.confidence_score))

instance : IsTotal PlayerSearchResult confGe :=
  ⟨fun a b => (le_total b.confidence_score a.confidence_score)⟩

instance : IsTrans PlayerSearchResult confGe :=
  ⟨fun _ _ _ h1 h2 => le_trans h2 h1⟩

/-- Model of `results.sort(key=lambda x: x.confidence_score, reverse=True)`:
Python list sort is stable, and a stable descending sort is uniquely described
by stable insertion sort with the `confGe` relation. -/
def sortByConfidenceDesc (l : List PlayerSearchResult) : List PlayerSearchResult :=
  List.insertionSort confGe l

/-- The possible outcomes of the HTTP search request inside `_search_players`:
an exception, a response whose JSON is not a dict with a `players` list, or a
well-formed `players` list. -/
inductive SearchOutcome where
  | excRaised (e : String)
  | badFormat
  | playersList (players : List RawPlayer)
deriving DecidableEq, Repr

/-- `WebScraper._search_players` of data_collector.py: on a well-formed
response, build a result per entry and sort by descending confidence; on an
unexpected format return the empty accumulator; on any exception return []. -/
def WebScraper._search_players (query : String) (outcome : SearchOutcome) :
    List PlayerSearchResult :=
  match outcome with
  | .excRaised _ => []
  | .badFormat => []
  | .playersList players => sortByConfidenceDesc (players.map (rawToResult query))

/-- `WebScraper.search_players_with_selection` of data_collector.py: with no
API key configured return []; otherwise return `_search_players` (whose own
try/except already converts any raised failure into []). -/
def WebScraper.search_players_with_selection (hasKey : Bool) (query : String)
    (outcome : SearchOutcome) : List PlayerSearchResult :=
  if hasKey then WebScraper._search_players query outcome else []

/-- The provider-order result list (one `PlayerSearchResult` per provider entry,
before sorting), used to state stability of the sort. -/
def providerOrderResults (query : String) (outcome : SearchOutcome) :
    List PlayerSearchResult :=
  match outcome with
  | .excRaised _ => []
  | .badFormat => []
  | .playersList players => players.map (rawToResult query)

/-- The context dictionary passed to `get_response` at each call site of
soccer_agent.py; it is the deterministic part of every outbound message (the
LLM renders text from exactly this data). -/
inductive RespCtx where
  | err (message : String)
  | player (player_name club : String)
  | playerFull (player_name club player_id : String)
  | results (items : List (Nat × String × String × String)) (found : Nat) (query : String)
  | resultsShort (items : List (String × String))
  | maybePlayer (p : Option (String × String))
deriving DecidableEq, Repr

/-- An outbound message of the agent, identified by the deterministic inputs
of the `get_response` (LLM) call that renders it. -/
inductive Msg where
  | response (input : String) (state : ConversationState) (ctx : RespCtx)
  | analysis (player_name : String) (data : PlayerData)
  | followUpAnswer (player_name question : String) (data : PlayerData)
  | followUpError (player_name : String)
deriving DecidableEq, Repr

/-- The per-session state of `LangChainConversationManager` (soccer_agent.py):
conversation state, last search results, selected player and cached
Transfermarkt payload.  The LLM, prompt and token-buffer memory fields carry
no control-flow state and are outside the embedding. -/
structure LangChainConversationManager where
  current_state : ConversationState
  search_results : List PlayerSearchResult
  selected_player : Option PlayerSearchResult
  player_data : Option PlayerData
deriving DecidableEq, Repr

/-- A freshly constructed `LangChainConversationManager` (its `__init__`). -/
def initManager : LangChainConversationManager :=
  { current_state := .SEARCHING
    search_results := []
    selected_player := none
    player_data := none }

/-- `LangChainConversationManager.reset`: back to SEARCHING with all data
cleared (the memory clearing has no modelled state). -/
def LangChainConversationManager.reset (_m : LangChainConversationManager) :
    LangChainConversationManager :=
  initManager

/-- `LangChainConversationManager.get_current_state`. -/
def LangChainConversationManager.get_current_state
    (m : LangChainConversationManager) : ConversationState :=
  m.current_state

/-- The numbered results list built in `handle_search_state` for the
multiple-results context (number, player_name, club, player_id). -/
def numberedResults (results : List PlayerSearchResult) :
    List (Nat × String × String × String) :=
  results.enum.map (fun p => (p.1 + 1, p.2.player_name, p.2.club, p.2.player_id))

/-- `LangChainConversationManager.handle_search_state`: store the results;
empty → ERROR with a no-players-found context; exactly one → auto-select it
and go straight to COMPLETED; otherwise SHOWING_RESULTS with the numbered
list. -/
def LangChainConversationManager.handle_search_state
    (m : LangChainConversationManager) (user_input : String)
    (search_results : List PlayerSearchResult) :
    LangChainConversationManager × Msg :=
  let m := { m with search_results := search_results }
  match search_results with
  | [] =>
      ({ m with current_state := .ERROR },
       .response user_input .ERROR (.err "No players found"))
  | [p] =>
      ({ m with selected_player := some p, current_state := .COMPLETED },
       .response user_input .COMPLETED (.playerFull p.player_name p.club p.player_id))
  | _ =>
      ({ m with current_state := .SHOWING_RESULTS },
       .response user_input .SHOWING_RESULTS
         (.results (numberedResults search_results) search_results.length user_input))

/-- `LangChainConversationManager.handle_selection_state`: a parsed in-range
integer selects `search_results[n-1]` and goes straight to COMPLETED; a
non-integer input selects the first candidate whose lowercased name contains
the lowercased stripped input; anything else answers with an
invalid-selection context and leaves the state unchanged. -/
def LangChainConversationManager.handle_selection_state
    (m : LangChainConversationManager) (user_input : String) :
    LangChainConversationManager × Msg :=
  match parsePyInt user_input with
  | some n =>
      if 1 ≤ n ∧ n ≤ (m.search_results.length : Int) then
        let p := m.search_results.getD ((n - 1).toNat) default
        ({ m with selected_player := some p, current_state := .COMPLETED },
         .response user_input .COMPLETED (.player p.player_name p.club))
      else
        (m, .response user_input m.current_state (.err "Invalid selection"))
  | none =>
      let key := pyStrip (pyLower user_input)
      match m.search_results.find?
          (fun r => subOf key.toList (pyLower r.player_name).toList) with
      | some r =>
          ({ m with selected_player := some r, current_state := .COMPLETED },
           .response user_input .COMPLETED (.player r.player_name r.club))
      | none =>
          (m, .response user_input m.current_state (.err "Invalid selection"))

/-- The affirmative tokens recognised during confirmation. -/
def affirmativeTokens : List String := ["yes", "y", "confirm", "sure", "ok"]

/-- The negative tokens recognised during confirmation. -/
def negativeTokens : List String := ["no", "n", "cancel", "other", "different"]

/-- `LangChainConversationManager.handle_confirmation_state`: affirmative with
no selection → ERROR; affirmative → COMPLETED returning the selection;
negative → back to SHOWING_RESULTS (selection kept, results re-shown);
anything else re-prompts in place. -/
def LangChainConversationManager.handle_confirmation_state
    (m : LangChainConversationManager) (user_input : String) :
    LangChainConversationManager × Msg × Option PlayerSearchResult :=
  let t := pyStrip (pyLower user_input)
  if affirmativeTokens.contains t then
    match m.selected_player with
    | none =>
        ({ m with current_state := .ERROR },
         .response user_input .ERROR (.err "No player selected"), none)
    | some p =>
        ({ m with current_state := .COMPLETED },
         .response user_input .COMPLETED (.player p.player_name p.club), some p)
  else if negativeTokens.contains t then
    ({ m with current_state := .SHOWING_RESULTS },
     .response user_input .SHOWING_RESULTS
       (.resultsShort (m.search_results.map (fun r => (r.player_name, r.club)))),
     none)
  else
    (m, .response user_input m.current_state
      (.maybePlayer (m.selected_player.map (fun p => (p.player_name, p.club)))), none)

/-- The concrete (template-rendered) messages produced by
`PlayerSelectionFlow`, identified by generator and arguments. -/
inductive FlowMsg where
  | searchingFor (name : String)
  | noPlayersFound
  | singleResult (p : PlayerSearchResult)
  | multipleResults (rs : List PlayerSearchResult)
  | selectBetween (lo hi : Nat)
  | noExactMatch (hi : Nat)
  | confirmPrompt (p : PlayerSearchResult)
  | selectedForAnalysis (p : PlayerSearchResult)
  | confirmationErr
  | askYesNo
deriving DecidableEq, Repr

/-- The state of `PlayerSelectionFlow` (soccer_agent.py).  Its `user_context`
dict only ever holds the `search_query` key, modelled as an option. -/
structure PlayerSelectionFlow where
  conversation_state : ConversationState
  search_results : List PlayerSearchResult
  selected_player : Option PlayerSearchResult
  user_context : Option String
deriving DecidableEq, Repr

/-- A freshly constructed `PlayerSelectionFlow` (its `__init__`). -/
def initFlow : PlayerSelectionFlow :=
  { conversation_state := .SEARCHING
    search_results := []
    selected_player := none
    user_context := none }

/-- `PlayerSelectionFlow.reset`: SEARCHING, empty results, no selection,
empty context. -/
def PlayerSelectionFlow.reset (_f : PlayerSelectionFlow) : PlayerSelectionFlow :=
  initFlow

/-- `PlayerSelectionFlow.get_current_state`. -/
def PlayerSelectionFlow.get_current_state (f : PlayerSelectionFlow) :
    ConversationState :=
  f.conversation_state

/-- `PlayerSelectionFlow.start_search`: record the query, state SEARCHING. -/
def PlayerSelectionFlow.start_search (f : PlayerSelectionFlow)
    (player_name : String) : PlayerSelectionFlow × FlowMsg :=
  ({ f with conversation_state := .SEARCHING, user_context := some player_name },
   .searchingFor player_name)

/-- `PlayerSelectionFlow.process_search_results`: store the results and set
SHOWING_RESULTS; empty → ERROR; exactly one → auto-select and ask for
confirmation (CONFIRMING_SELECTION); otherwise show the list. -/
def PlayerSelectionFlow.process_search_results (f : PlayerSelectionFlow)
    (results : List PlayerSearchResult) : PlayerSelectionFlow × FlowMsg :=
  let f := { f with search_results := results, conversation_state := .SHOWING_RESULTS }
  match results with
  | [] => ({ f with conversation_state := .ERROR }, .noPlayersFound)
  | [p] =>
      ({ f with selected_player := some p, conversation_state := .CONFIRMING_SELECTION },
       .singleResult p)
  | _ => (f, .multipleResults results)

/-- `PlayerSelectionFlow.handle_user_selection`: a parsed in-range integer
selects `search_results[n-1]` and moves to CONFIRMING_SELECTION; out of range
re-prompts with the valid bounds; non-integer input tries a case-insensitive
substring match on the display names, first hit wins. -/
def PlayerSelectionFlow.handle_user_selection (f : PlayerSelectionFlow)
    (user_input : String) : PlayerSelectionFlow × FlowMsg :=
  match parsePyInt user_input with
  | some n =>
      if 1 ≤ n ∧ n ≤ (f.search_results.length : Int) then
        let p := f.search_results.getD ((n - 1).toNat) default
        ({ f with selected_player := some p,
                  conversation_state := .CONFIRMING_SELECTION },
         .confirmPrompt p)
      else
        (f, .selectBetween 1 f.search_results.length)
  | none =>
      let key := pyStrip (pyLower user_input)
      match f.search_results.find?
          (fun r => subOf key.toList (pyLower r.player_name).toList) with
      | some r =>
          ({ f with selected_player := some r,
                    conversation_state := .CONFIRMING_SELECTION },
           .confirmPrompt r)
      | none =>
          (f, .noExactMatch f.search_results.length)

/-- `PlayerSelectionFlow.handle_confirmation`: affirmative with no selection →
error message, state unchanged; affirmative → COMPLETED returning the
selection; negative → back to SHOWING_RESULTS re-showing the kept results
(selection not cleared); anything else asks for yes/no. -/
def PlayerSelectionFlow.handle_confirmation (f : PlayerSelectionFlow)
    (user_input : String) : PlayerSelectionFlow × FlowMsg × Option PlayerSearchResult :=
  let t := pyStrip (pyLower user_input)
  if affirmativeTokens.contains t then
    match f.selected_player with
    | none => (f, .confirmationErr, none)
    | some p =>
        ({ f with conversation_state := .COMPLETED },
         .selectedForAnalysis p, some p)
  else if negativeTokens.contains t then
    ({ f with conversation_state := .SHOWING_RESULTS },
     .multipleResults f.search_results, none)
  else
    (f, .askYesNo, none)

/-- The per-user session store `SoccerAgent.user_sessions`, modelled as an
association list with Python-dict semantics (first occurrence is the entry). -/
abbrev Sessions := List (String × LangChainConversationManager)

/-- Dict lookup `self.user_sessions[user_id]` / `user_id in self.user_sessions`. -/
def lookupSession : Sessions → String → Option LangChainConversationManager
  | [], _ => none
  | (k, m) :: t, u => if k = u then some m else lookupSession t u

/-- Dict write `self.user_sessions[user_id] = m`: replace the existing entry in
place, or append a new one. -/
def setSession : Sessions → String → LangChainConversationManager → Sessions
  | [], u, m => [(u, m)]
  | (k, v) :: t, u, m =>
      if k = u then (u, m) :: t else (k, v) :: setSession t u m

/-- The external collaborators of `SoccerAgent`, abstracted as oracles: the
LLM name extraction of `_extract_player_name`, the candidate matcher
`web_scraper.search_players_with_selection`, the LLM classifier of
`_is_follow_up_question`, and `web_scraper.get_transfermarkt_data_by_id`
(`none` models a falsy payload, which the caller turns into an exception). -/
structure Env where
  extractPlayerName : String → String
  search : String → List PlayerSearchResult
  isFollowUp : String → Bool
  fetchById : String → Option PlayerData

/-- `SoccerAgent._analyze_selected_player`: reuse the cached payload when it
exists for the same player id, otherwise fetch it (a falsy payload raises and
is answered by the caught-error response with no state change); on success
store the payload, pin the selection, force COMPLETED and emit the analysis
report. -/
def SoccerAgent._analyze_selected_player (env : Env)
    (m : LangChainConversationManager) (selected : PlayerSearchResult) :
    LangChainConversationManager × Msg :=
  match m.player_data, m.selected_player with
  | some d, some sp =>
      if sp.player_id = selected.player_id then
        ({ m with current_state := .COMPLETED }, .analysis selected.player_name d)
      else
        match env.fetchById selected.player_id with
        | none =>
            (m, .response "Error analyzing player" .ERROR
                  (.err "Could not fetch Transfermarkt data for player"))
        | some d2 =>
            ({ m with player_data := some d2, selected_player := some selected,
                      current_state := .COMPLETED },
             .analysis selected.player_name d2)
  | _, _ =>
      match env.fetchById selected.player_id with
      | none =>
          (m, .response "Error analyzing player" .ERROR
                (.err "Could not fetch Transfermarkt data for player"))
      | some d2 =>
          ({ m with player_data := some d2, selected_player := some selected,
                    current_state := .COMPLETED },
           .analysis selected.player_name d2)

/-- `SoccerAgent._handle_search_request`: extract the player name, run the
matcher, feed the results to `handle_search_state`, and additionally force
COMPLETED when there was a single result. -/
def SoccerAgent._handle_search_request (env : Env)
    (m : LangChainConversationManager) (message : String) :
    LangChainConversationManager × Msg :=
  let results := env.search (env.extractPlayerName message)
  let r := m.handle_search_state message results
  if results.length = 1 then
    ({ r.1 with current_state := .COMPLETED }, r.2)
  else r

/-- The body of `SoccerAgent.handle_message` once the session exists: dispatch
on the session state (SEARCHING: search, then analyze immediately on a single
result; SHOWING_RESULTS: selection, then analyze on success; COMPLETED:
follow-up question or reset-and-research; any other state: reset-and-research). -/
def SoccerAgent.handle_message_core (env : Env) (store : Sessions)
    (user_id message : String) (session : LangChainConversationManager) :
    Sessions × Msg :=
  match session.current_state with
  | .SEARCHING =>
      let r := SoccerAgent._handle_search_request env session message
      if r.1.search_results.length = 1 then
        let p := r.1.search_results.getD 0 default
        let m2 := { r.1 with selected_player := some p, current_state := .COMPLETED }
        let a := SoccerAgent._analyze_selected_player env m2 p
        (setSession store user_id a.1, a.2)
      else
        (setSession store user_id r.1, r.2)
  | .SHOWING_RESULTS =>
      let r := session.handle_selection_state message
      match r.1.selected_player with
      | some p =>
          if r.1.current_state = .COMPLETED then
            let a := SoccerAgent._analyze_selected_player env r.1 p
            (setSession store user_id a.1, a.2)
          else
            (setSession store user_id r.1, r.2)
      | none =>
          (setSession store user_id r.1, r.2)
  | .COMPLETED =>
      match session.selected_player with
      | some p =>
          if env.isFollowUp message then
            match session.player_data with
            | some d => (store, .followUpAnswer p.player_name message d)
            | none => (store, .followUpError p.player_name)
          else
            let r := SoccerAgent._handle_search_request env session.reset message
            (setSession store user_id r.1, r.2)
      | none =>
          let r := SoccerAgent._handle_search_request env session.reset message
          (setSession store user_id r.1, r.2)
  | _ =>
      let r := SoccerAgent._handle_search_request env session.reset message
      (setSession store user_id r.1, r.2)

/-- `SoccerAgent.handle_message`: create the session on first contact, then
run the state dispatch. -/
def SoccerAgent.handle_message (env : Env) (store : Sessions)
    (user_id message : String) : Sessions × Msg :=
  match lookupSession store user_id with
  | some session => SoccerAgent.handle_message_core env store user_id message session
  | none =>
      SoccerAgent.handle_message_core env (setSession store user_id initManager)
        user_id message initManager

/-- `SoccerAgent.reset_user_session`: reset the session if it exists,
otherwise do nothing. -/
def SoccerAgent.reset_user_session (store : Sessions) (user_id : String) :
    Sessions :=
  match lookupSession store user_id with
  | some m => setSession store user_id m.reset
  | none => store

/-- `SoccerAgent.get_user_state` as a state transformer: report the session
state (SEARCHING when no session exists) and hand back the untouched store. -/
def SoccerAgent.get_user_state (store : Sessions) (user_id : String) :
    ConversationState × Sessions :=
  match lookupSession store user_id with
  | some m => (m.get_current_state, store)
  | none => (.SEARCHING, store)

/-- The session stored for a user after one `handle_message` turn. -/
def sessionAfter (env : Env) (store : Sessions) (user_id message : String) :
    Option LangChainConversationManager :=
  lookupSession (SoccerAgent.handle_message env store user_id message).1 user_id

/-- The outbound message of one `handle_message` turn. -/
def agentReply (env : Env) (store : Sessions) (user_id message : String) : Msg :=
  (SoccerAgent.handle_message env store user_id message).2

/-- Run `handle_message` over a sequence of (user, message) turns starting
from the empty session store. -/
def agentRun (env : Env) (turns : List (String × String)) : Sessions :=
  turns.foldl (fun s t => (SoccerAgent.handle_message env s t.1 t.2).1) []

/-- Modelled from the spec: the repository defines the transition methods of
`PlayerSelectionFlow` but ships no dispatch loop for them, so the driver
follows the state table of the spec — SEARCHING: run the matcher on the text
and process its results; SHOWING_RESULTS: treat the text as a selection;
CONFIRMING_SELECTION: treat it as a confirmation answer; COMPLETED and ERROR:
reset, then process the text as a fresh search. -/
def flowStep (matcher : String → List PlayerSearchResult)
    (f : PlayerSelectionFlow) (input : String) : PlayerSelectionFlow :=
  match f.conversation_state with
  | .SEARCHING => ((f.start_search input).1.process_search_results (matcher input)).1
  | .SHOWING_RESULTS => (f.handle_user_selection input).1
  | .CONFIRMING_SELECTION => (f.handle_confirmation input).1
  | _ => ((f.reset.start_search input).1.process_search_results (matcher input)).1

/-- Run the flow machine over a sequence of inbound texts from a fresh flow. -/
def flowRun (matcher : String → List PlayerSearchResult) (inputs : List String) :
    PlayerSelectionFlow :=
  inputs.foldl (flowStep matcher) initFlow

/-- The states in which a non-null selection can actually occur in the code:
the spec invariant set {CONFIRMING_SELECTION, COMPLETED} widened by
SHOWING_RESULTS (reached by answering no during confirmation, which keeps the
selection). -/
def selStateOk (s : ConversationState) : Prop :=
  s = .CONFIRMING_SELECTION ∨ s = .COMPLETED ∨ s = .SHOWING_RESULTS

instance (s : ConversationState) : Decidable (selStateOk s) := by
  unfold selStateOk; infer_instance

/-- Reachability invariant of the `PlayerSelectionFlow` machine: a non-null
selection only in `selStateOk` states, and a nonempty candidate list whenever
results are being shown or a selection is being confirmed. -/
def FlowInv (f : PlayerSelectionFlow) : Prop :=
  (f.selected_player ≠ none → selStateOk f.conversation_state) ∧
  ((f.conversation_state = .SHOWING_RESULTS ∨
    f.conversation_state = .CONFIRMING_SELECTION) → 1 ≤ f.search_results.length)

/-- Reachability invariant of a `LangChainConversationManager` session driven
by `SoccerAgent.handle_message`: a non-null selection only in `selStateOk`
states, and at least two candidates whenever results are being shown. -/
def ManagerInv (m : LangChainConversationManager) : Prop :=
  (m.selected_player ≠ none → selStateOk m.current_state) ∧
  (m.current_state = .SHOWING_RESULTS → 2 ≤ m.search_results.length)

/-- Store-wide invariant: every stored session satisfies `ManagerInv`. -/
def StoreInv (store : Sessions) : Prop :=
  ∀ u m, lookupSession store u = some m → ManagerInv m

/-- The single candidate of the one-match scenario of the spec. -/
def jordan : PlayerSearchResult :=
  { player_id := "42", player_name := "Jordan Smith", club := "FC Example",
    confidence_score := 1 }

/-- First candidate of a two-match scenario. -/
def alphaOne : PlayerSearchResult :=
  { player_id := "1", player_name := "Alpha One", club := "Club A",
    confidence_score := 1 }

/-- Second candidate of a two-match scenario. -/
def alphaTwo : PlayerSearchResult :=
  { player_id := "2", player_name := "Alpha Two", club := "Club B",
    confidence_score := simContains }

/-- A concrete matcher: one match for the query Jordan, none otherwise. -/
def jordanMatcher (q : String) : List PlayerSearchResult :=
  if q = "Jordan" then [jordan] else []

/-- A concrete oracle environment around `jordanMatcher`. -/
def envJordan : Env :=
  { extractPlayerName := fun s => s
    search := jordanMatcher
    isFollowUp := fun _ => false
    fetchById := fun _ => some "payload" }

/-- A concrete session sitting in SHOWING_RESULTS with two candidates. -/
def showingManager : LangChainConversationManager :=
  { current_state := .SHOWING_RESULTS
    search_results := [alphaOne, alphaTwo]
    selected_player := none
    player_data := none }

/-- A store holding `showingManager` for user u. -/
def showingStore : Sessions := [("u", showingManager)]

/-- A store holding a session in the ERROR state for user u. -/
def errorStore : Sessions := [("u", { initManager with current_state := .ERROR })]

/-- A concrete flow sitting in SHOWING_RESULTS with two candidates. -/
def showingFlow : PlayerSelectionFlow :=
  { conversation_state := .SHOWING_RESULTS
    search_results := [alphaOne, alphaTwo]
    selected_player := none
    user_context := none }

theorem lookupSession_setSession_self (s : Sessions) (u : String)
    (m : LangChainConversationManager) :
    lookupSession (setSession s u m) u = some m := by
  induction s with
  | nil => simp [setSession, lookupSession]
  | cons h t ih =>
      obtain ⟨k, v⟩ := h
      by_cases hk : k = u
      · simp [setSession, lookupSession, hk]
      · simp [setSession, lookupSession, hk, ih]

theorem lookupSession_setSession_ne (s : Sessions) (u v : String)
    (m : LangChainConversationManager) (h : v ≠ u) :
    lookupSession (setSession s u m) v = lookupSession s v := by
  induction s with
  | nil => simp [setSession, lookupSession, Ne.symm h]
  | cons hd t ih =>
      obtain ⟨k, w⟩ := hd
      by_cases hk : k = u
      · subst hk
        simp [setSession, lookupSession, Ne.symm h]
      · simp [setSession, lookupSession, hk, ih]

theorem setSession_setSession (s : Sessions) (u : String)
    (m₁ m₂ : LangChainConversationManager) :
    setSession (setSession s u m₁) u m₂ = setSession s u m₂ := by
  induction s with
  | nil => simp [setSession]
  | cons hd t ih =>
      obtain ⟨k, w⟩ := hd
      by_cases hk : k = u
      · simp [setSession, hk]
      · simp [setSession, hk, ih]

theorem storeInv_nil : StoreInv [] := by
  intro u m h
  simp [lookupSession] at h

theorem storeInv_set {s : Sessions} {u : String}
    {m : LangChainConversationManager} (hs : StoreInv s) (hm : ManagerInv m) :
    StoreInv (setSession s u m) := by
  intro v m' hv
  by_cases hvu : v = u
  · subst hvu
    rw [lookupSession_setSession_self] at hv
    cases hv
    exact hm
  · rw [lookupSession_setSession_ne _ _ _ _ hvu] at hv
    exact hs v m' hv

theorem managerInv_init : ManagerInv initManager := by
  constructor
  · intro h
    simp [initManager] at h
  · intro h
    simp [initManager] at h

theorem managerInv_of_completed {m : LangChainConversationManager}
    (h : m.current_state = .COMPLETED) : ManagerInv m := by
  constructor
  · intro _
    exact Or.inr (Or.inl h)
  · intro hs
    rw [h] at hs
    cases hs

theorem selected_none_of_searching {m : LangChainConversationManager}
    (hm : ManagerInv m) (h : m.current_state = .SEARCHING) :
    m.selected_player = none := by
  cases hsel : m.selected_player with
  | none => rfl
  | some p =>
      have := hm.1 (by simp [hsel])
      rw [h] at this
      rcases this with h' | h' | h' <;> cases h'

theorem hsr_nil {env : Env} {m : LangChainConversationManager} {msg : String}
    (h : env.search (env.extractPlayerName msg) = []) :
    SoccerAgent._handle_search_request env m msg =
      ({ current_state := .ERROR, search_results := [],
         selected_player := m.selected_player, player_data := m.player_data },
       .response msg .ERROR (.err "No players found")) := by
  simp [SoccerAgent._handle_search_request, h,
    LangChainConversationManager.handle_search_state]

theorem hsr_single {env : Env} {m : LangChainConversationManager} {msg : String}
    {p : PlayerSearchResult} (h : env.search (env.extractPlayerName msg) = [p]) :
    SoccerAgent._handle_search_request env m msg =
      ({ current_state := .COMPLETED, search_results := [p],
         selected_player := some p, player_data := m.player_data },
       .response msg .COMPLETED (.playerFull p.player_name p.club p.player_id)) := by
  simp [SoccerAgent._handle_search_request, h,
    LangChainConversationManager.handle_search_state]

theorem hsr_multi {env : Env} {m : LangChainConversationManager} {msg : String}
    {a b : PlayerSearchResult} {t : List PlayerSearchResult}
    (h : env.search (env.extractPlayerName msg) = a :: b :: t) :
    SoccerAgent._handle_search_request env m msg =
      ({ current_state := .SHOWING_RESULTS, search_results := a :: b :: t,
         selected_player := m.selected_player, player_data := m.player_data },
       .response msg .SHOWING_RESULTS
         (.results (numberedResults (a :: b :: t)) (a :: b :: t).length msg)) := by
  simp [SoccerAgent._handle_search_request, h,
    LangChainConversationManager.handle_search_state]

theorem analyze_post {env : Env} {m : LangChainConversationManager}
    {p : PlayerSearchResult} (hsel : m.selected_player = some p)
    (hst : m.current_state = .COMPLETED) :
    (SoccerAgent._analyze_selected_player env m p).1.current_state = .COMPLETED ∧
    (SoccerAgent._analyze_selected_player env m p).1.selected_player = some p ∧
    (SoccerAgent._analyze_selected_player env m p).1.search_results = m.search_results := by
  unfold SoccerAgent._analyze_selected_player
  cases hd : m.player_data with
  | some d => simp [hsel, hst]
  | none =>
      cases hf : env.fetchById p.player_id with
      | none => simp [hsel, hst, hf]
      | some d2 => simp [hsel, hst, hf]

theorem managerInv_hsr {env : Env} {m : LangChainConversationManager}
    {msg : String} (hsel : m.selected_player = none) :
    ManagerInv (SoccerAgent._handle_search_request env m msg).1 := by
  rcases hr : env.search (env.extractPlayerName msg) with _ | ⟨a, _ | ⟨b, t⟩⟩
  · rw [hsr_nil hr]
    exact ⟨by simp [hsel], by simp⟩
  · rw [hsr_single hr]
    exact managerInv_of_completed rfl
  · rw [hsr_multi hr]
    refine ⟨by simp [hsel], ?_⟩
    intro _
    simp

theorem storeInv_core {env : Env} {store : Sessions} {u msg : String}
    {session : LangChainConversationManager} (hs : StoreInv store)
    (hm : ManagerInv session) :
    StoreInv (SoccerAgent.handle_message_core env store u msg session).1 := by
  cases hst : session.current_state with
  | SEARCHING =>
      have hsel := selected_none_of_searching hm hst
      rcases hr : env.search (env.extractPlayerName msg) with _ | ⟨a, _ | ⟨b, t⟩⟩
      · simp only [SoccerAgent.handle_message_core, hst, hsr_nil hr]
        simp only [List.length_nil]
        rw [if_neg (by decide)]
        exact storeInv_set hs ⟨by simp [hsel], by simp⟩
      · simp only [SoccerAgent.handle_message_core, hst, hsr_single hr]
        simp only [List.length_singleton, if_pos rfl]
        refine storeInv_set hs (managerInv_of_completed ?_)
        exact (analyze_post (by simp [List.getD]) rfl).1
      · simp only [SoccerAgent.handle_message_core, hst, hsr_multi hr]
        simp only [List.length_cons]
        rw [if_neg (by omega)]
        refine storeInv_set hs ⟨by simp [hsel], ?_⟩
        intro _
        simp
  | SHOWING_RESULTS =>
      simp only [SoccerAgent.handle_message_core, hst]
      unfold LangChainConversationManager.handle_selection_state
      rcases hp : parsePyInt msg with _ | n
      · rcases hf : session.search_results.find?
            (fun r => subOf (pyStrip (pyLower msg)).toList (pyLower r.player_name).toList)
            with _ | r'
        · simp only [hf]
          cases hsel : session.selected_player with
          | none => exact storeInv_set hs hm
          | some p =>
              simp only [hsel, hst]
              rw [if_neg (by decide)]
              exact storeInv_set hs hm
        · simp only [hf, if_pos rfl]
          refine storeInv_set hs (managerInv_of_completed ?_)
          exact (analyze_post rfl rfl).1
      · by_cases hb : 1 ≤ n ∧ n ≤ (session.search_results.length : Int)
        · simp only [hb, if_pos, if_true]
          refine storeInv_set hs (managerInv_of_completed ?_)
          exact (analyze_post rfl rfl).1
        · simp only [hb, if_false]
          cases hsel : session.selected_player with
          | none => exact storeInv_set hs hm
          | some p =>
              simp only [hsel, hst]
              rw [if_neg (by decide)]
              exact storeInv_set hs hm
  | COMPLETED =>
      simp only [SoccerAgent.handle_message_core, hst]
      cases hsel : session.selected_player with
      | none =>
          exact storeInv_set hs (managerInv_hsr (by simp [LangChainConversationManager.reset, initManager]))
      | some p =>
          by_cases hfu : env.isFollowUp msg
          · simp only [hfu, if_true]
            cases hpd : session.player_data <;> exact hs
          · simp only [hfu, if_false]
            exact storeInv_set hs (managerInv_hsr (by simp [LangChainConversationManager.reset, initManager]))
  | CONFIRMING_SELECTION =>
      simp only [SoccerAgent.handle_message_core, hst]
      exact storeInv_set hs (managerInv_hsr (by simp [LangChainConversationManager.reset, initManager]))
  | ERROR =>
      simp only [SoccerAgent.handle_message_core, hst]
      exact storeInv_set hs (managerInv_hsr (by simp [LangChainConversationManager.reset, initManager]))

theorem storeInv_handle_message {env : Env} {store : Sessions} {u msg : String}
    (hs : StoreInv store) :
    StoreInv (SoccerAgent.handle_message env store u msg).1 := by
  unfold SoccerAgent.handle_message
  cases hl : lookupSession store u with
  | some session => exact storeInv_core hs (hs u session hl)
  | none => exact storeInv_core (storeInv_set hs managerInv_init) managerInv_init

theorem storeInv_foldl (env : Env) (turns : List (String × String)) :
    ∀ s : Sessions, StoreInv s →
      StoreInv (turns.foldl (fun s t => (SoccerAgent.handle_message env s t.1 t.2).1) s) := by
  induction turns with
  | nil => intro s hs; exact hs
  | cons t ts ih =>
      intro s hs
      exact ih _ (storeInv_handle_message hs)

theorem storeInv_agentRun (env : Env) (turns : List (String × String)) :
    StoreInv (agentRun env turns) :=
  storeInv_foldl env turns [] storeInv_nil

theorem flowInv_init : FlowInv initFlow := by
  constructor
  · intro h; simp [initFlow] at h
  · intro h; simp [initFlow] at h

theorem flow_selected_none_of_searching {f : PlayerSelectionFlow}
    (hf : FlowInv f) (h : f.conversation_state = .SEARCHING) :
    f.selected_player = none := by
  cases hsel : f.selected_player with
  | none => rfl
  | some p =>
      have := hf.1 (by simp [hsel])
      rw [h] at this
      rcases this with h' | h' | h' <;> cases h'

theorem flowInv_process {f : PlayerSelectionFlow}
    {results : List PlayerSearchResult} (hsel : f.selected_player = none) :
    FlowInv (f.process_search_results results).1 := by
  rcases results with _ | ⟨a, _ | ⟨b, t⟩⟩
  · exact ⟨by simp [PlayerSelectionFlow.process_search_results, hsel],
      by simp [PlayerSelectionFlow.process_search_results]⟩
  · exact ⟨by simp [PlayerSelectionFlow.process_search_results, selStateOk],
      by simp [PlayerSelectionFlow.process_search_results]⟩
  · exact ⟨by simp [PlayerSelectionFlow.process_search_results, hsel],
      by simp [PlayerSelectionFlow.process_search_results]⟩

theorem flowInv_step {matcher : String → List PlayerSearchResult}
    {f : PlayerSelectionFlow} {input : String} (h : FlowInv f) :
    FlowInv (flowStep matcher f input) := by
  cases hst : f.conversation_state with
  | SEARCHING =>
      have hsel := flow_selected_none_of_searching h hst
      simp only [flowStep, hst]
      exact flowInv_process (by simp [PlayerSelectionFlow.start_search, hsel])
  | SHOWING_RESULTS =>
      have hlen := h.2 (Or.inl hst)
      simp only [flowStep, hst]
      unfold PlayerSelectionFlow.handle_user_selection
      rcases hp : parsePyInt input with _ | n
      · rcases hfind : f.search_results.find?
            (fun r => subOf (pyStrip (pyLower input)).toList (pyLower r.player_name).toList)
            with _ | r'
        · simpa only [hfind] using h
        · simp only [hfind]
          exact ⟨by simp [selStateOk], by simpa using hlen⟩
      · by_cases hb : 1 ≤ n ∧ n ≤ (f.search_results.length : Int)
        · simp only [hb, if_pos, if_true]
          exact ⟨by simp [selStateOk], by simpa using hlen⟩
        · simp only [hb, if_false]
          exact h
  | CONFIRMING_SELECTION =>
      have hlen := h.2 (Or.inr hst)
      simp only [flowStep, hst]
      unfold PlayerSelectionFlow.handle_confirmation
      by_cases ha : affirmativeTokens.contains (pyStrip (pyLower input))
      · simp only [ha, if_true]
        cases hsel : f.selected_player with
        | none => exact h
        | some p =>
            exact ⟨by simp [selStateOk], by intro hh; rcases hh with hh | hh <;> cases hh⟩
      · by_cases hn : negativeTokens.contains (pyStrip (pyLower input))
        · simp only [ha, hn, if_false, if_true]
          exact ⟨by simp [selStateOk], by simpa using hlen⟩
        · simp only [ha, hn, if_false]
          exact h
  | COMPLETED =>
      simp only [flowStep, hst]
      exact flowInv_process
        (by simp [PlayerSelectionFlow.start_search, PlayerSelectionFlow.reset, initFlow])
  | ERROR =>
      simp only [flowStep, hst]
      exact flowInv_process
        (by simp [PlayerSelectionFlow.start_search, PlayerSelectionFlow.reset, initFlow])

theorem flowInv_foldl (matcher : String → List PlayerSearchResult)
    (inputs : List String) :
    ∀ f : PlayerSelectionFlow, FlowInv f →
      FlowInv (inputs.foldl (flowStep matcher) f) := by
  induction inputs with
  | nil => intro f hf; exact hf
  | cons i is ih =>
      intro f hf
      exact ih _ (flowInv_step hf)

theorem flowInv_flowRun (matcher : String → List PlayerSearchResult)
    (inputs : List String) : FlowInv (flowRun matcher inputs) :=
  flowInv_foldl matcher inputs initFlow flowInv_init

theorem filter_orderedInsert_conf (c : ℚ) (x : PlayerSearchResult)
    (l : List PlayerSearchResult) :
    (List.orderedInsert confGe x l).filter (fun r => decide (r.confidence_score = c))
      = ((x :: l).filter (fun r => decide (r.confidence_score = c))) := by
  induction l with
  | nil => simp [List.orderedInsert]
  | cons y ys ih =>
      by_cases h : confGe x y
      · simp [List.orderedInsert, h]
      · have hxy : x.confidence_score < y.confidence_score := not_le.mp h
        simp only [List.orderedInsert, if_neg h]
        by_cases hy : y.confidence_score = c
        · have hx : ¬ x.confidence_score = c := by
            intro hc
            rw [hc, hy] at hxy
            exact lt_irrefl c hxy
          simp [List.filter_cons, hy, hx, ih]
        · by_cases hx : x.confidence_score = c
          · simp [List.filter_cons, hy, hx, ih]
          · simp [List.filter_cons, hy, hx, ih]

theorem filter_sortByConfidenceDesc (c : ℚ) (l : List PlayerSearchResult) :
    (sortByConfidenceDesc l).filter (fun r => decide (r.confidence_score = c))
      = l.filter (fun r => decide (r.confidence_score = c)) := by
  induction l with
  | nil => rfl
  | cons x t ih =>
      simp only [sortByConfidenceDesc, List.insertionSort] at ih ⊢
      rw [filter_orderedInsert_conf, List.filter_cons, List.filter_cons, ih]

theorem sorted_sortByConfidenceDesc (l : List PlayerSearchResult) :
    List.Sorted confGe (sortByConfidenceDesc l) :=
  List.sorted_insertionSort confGe l

/-- C7: for every query and every provider outcome, the candidate list
returned by the operational matcher (`search_players_with_selection` with an
API key configured) is sorted in descending order of confidence score, and
for every confidence value the candidates carrying it appear exactly in their
provider order (stability of the sort). -/
theorem C7_search_sorted_and_stable (query : String) (outcome : SearchOutcome) :
    List.Sorted confGe (WebScraper.search_players_with_selection true query outcome) ∧
    ∀ c : ℚ,
      (WebScraper.search_players_with_selection true query outcome).filter
          (fun r => decide (r.confidence_score = c))
        = (providerOrderResults query outcome).filter
            (fun r => decide (r.confidence_score = c)) := by
  cases outcome with
  | excRaised e =>
      exact ⟨by simp [WebScraper.search_players_with_selection,
        WebScraper._search_players],
        fun c => by simp [WebScraper.search_players_with_selection,
          WebScraper._search_players, providerOrderResults]⟩
  | badFormat =>
      exact ⟨by simp [WebScraper.search_players_with_selection,
        WebScraper._search_players],
        fun c => by simp [WebScraper.search_players_with_selection,
          WebScraper._search_players, providerOrderResults]⟩
  | playersList players =>
      refine ⟨?_, fun c => ?_⟩
      · simpa [WebScraper.search_players_with_selection, WebScraper._search_players]
          using sorted_sortByConfidenceDesc (players.map (rawToResult query))
      · simpa [WebScraper.search_players_with_selection, WebScraper._search_players,
          providerOrderResults]
          using filter_sortByConfidenceDesc c (players.map (rawToResult query))

/-- C8: `reset_user_session` is idempotent — calling it twice leaves exactly
the store a single call produces, and after one call the session of that user
(when it exists) is SEARCHING with empty candidates and no selection. -/
theorem C8_reset_idempotent (store : Sessions) (u : String) :
    SoccerAgent.reset_user_session (SoccerAgent.reset_user_session store u) u
      = SoccerAgent.reset_user_session store u ∧
    ∀ m, lookupSession (SoccerAgent.reset_user_session store u) u = some m →
      m.current_state = .SEARCHING ∧ m.search_results = [] ∧
      m.selected_player = none := by
  cases hl : lookupSession store u with
  | none =>
      have hstep : SoccerAgent.reset_user_session store u = store := by
        unfold SoccerAgent.reset_user_session
        rw [hl]
      refine ⟨?_, ?_⟩
      · rw [hstep]
        exact hstep
      · intro m hm
        rw [hstep, hl] at hm
        cases hm
  | some m0 =>
      have hstep : SoccerAgent.reset_user_session store u = setSession store u m0.reset := by
        unfold SoccerAgent.reset_user_session
        rw [hl]
      have h1 : lookupSession (setSession store u m0.reset) u = some m0.reset :=
        lookupSession_setSession_self store u m0.reset
      have hstep2 : SoccerAgent.reset_user_session (setSession store u m0.reset) u
          = setSession (setSession store u m0.reset) u m0.reset.reset := by
        unfold SoccerAgent.reset_user_session
        rw [h1]
      refine ⟨?_, ?_⟩
      · rw [hstep, hstep2, setSession_setSession]
        rfl
      · intro m hm
        rw [hstep, h1] at hm
        cases hm
        simp [LangChainConversationManager.reset, initManager]

/-- Closed witness for C8 at a concrete store holding a SHOWING_RESULTS
session for user u. -/
theorem C8_witness :
    (SoccerAgent.reset_user_session (SoccerAgent.reset_user_session showingStore "u") "u"
       = SoccerAgent.reset_user_session showingStore "u") ∧
    (initManager.current_state = .SEARCHING ∧ initManager.search_results = [] ∧
     initManager.selected_player = none) :=
  ⟨(C8_reset_idempotent showingStore "u").1,
   (C8_reset_idempotent showingStore "u").2 initManager (by decide)⟩

/-- C9: for a user with no session, `get_user_state` reports SEARCHING and
hands back the store untouched — no session entry is created by the read. -/
theorem C9_get_state_fresh (store : Sessions) (u : String)
    (h : lookupSession store u = none) :
    SoccerAgent.get_user_state store u = (.SEARCHING, store) := by
  unfold SoccerAgent.get_user_state
  rw [h]

/-- Closed witness for C9 on a store that has a session for u but none for v. -/
theorem C9_witness :
    SoccerAgent.get_user_state showingStore "v" = (.SEARCHING, showingStore) :=
  C9_get_state_fresh showingStore "v" (by decide)

/-- C10: for a user with no session, `reset_user_session` returns the store
completely unchanged: no entry is created and every other session is intact. -/
theorem C10_reset_absent_noop (store : Sessions) (u : String)
    (h : lookupSession store u = none) :
    SoccerAgent.reset_user_session store u = store := by
  unfold SoccerAgent.reset_user_session
  rw [h]

/-- Closed witness for C10 on a store that has a session for u but none for v. -/
theorem C10_witness :
    SoccerAgent.reset_user_session showingStore "v" = showingStore :=
  C10_reset_absent_noop showingStore "v" (by decide)

/-- C1 (amended): for every session in the SEARCHING state, when the matcher
returns exactly one candidate for the inbound text, `handle_message` moves the
session directly to COMPLETED with that single candidate stored as the
selection — the auto-select skips the results list and the confirmation
prompt entirely (it does not stop at CONFIRMING_SELECTION). -/
theorem C1_single_match_auto_completes (env : Env) (store : Sessions)
    (u msg : String) (m : LangChainConversationManager) (p : PlayerSearchResult)
    (hl : lookupSession store u = some m) (hst : m.current_state = .SEARCHING)
    (hr : env.search (env.extractPlayerName msg) = [p]) :
    ∃ m', sessionAfter env store u msg = some m' ∧
      m'.current_state = .COMPLETED ∧ m'.selected_player = some p := by
  unfold sessionAfter SoccerAgent.handle_message
  rw [hl]
  simp only [SoccerAgent.handle_message_core, hst, hsr_single hr]
  simp only [List.length_singleton, if_pos rfl, if_true]
  rw [lookupSession_setSession_self]
  have hd : ([p] : List PlayerSearchResult).getD 0 default = p := by simp
  refine ⟨_, rfl, ?_, ?_⟩
  · exact (analyze_post (by simp) rfl).1
  · rw [(analyze_post (by simp) rfl).2.1, hd]

/-- C1 counterexample: in the one-match scenario of the spec (query Jordan,
matcher returning only the candidate with id 42), `handle_message` leaves the
session in COMPLETED — not in CONFIRMING_SELECTION as the claim states. -/
theorem C1_counterexample :
    (sessionAfter envJordan [] "u" "Jordan").map
        LangChainConversationManager.current_state = some .COMPLETED ∧
    (sessionAfter envJordan [] "u" "Jordan").map
        LangChainConversationManager.current_state
      ≠ some .CONFIRMING_SELECTION := by
  constructor
  · decide
  · decide

/-- Closed witness for C1 at the concrete one-match scenario. -/
theorem C1_witness :
    ∃ m', sessionAfter envJordan [("u", initManager)] "u" "Jordan" = some m' ∧
      m'.current_state = .COMPLETED ∧ m'.selected_player = some jordan :=
  C1_single_match_auto_completes envJordan [("u", initManager)] "u" "Jordan"
    initManager jordan (by decide) (by decide) (by decide)

/-- C2 (amended): over every sequence of transitions — both for the
`PlayerSelectionFlow` machine under the spec state table and for
`LangChainConversationManager` sessions driven by `handle_message` — a
non-null stored selection implies the state is CONFIRMING_SELECTION,
COMPLETED or SHOWING_RESULTS.  SHOWING_RESULTS must be admitted because
answering no during confirmation moves the state there while retaining the
selection. -/
theorem C2_selection_state_invariant (matcher : String → List PlayerSearchResult)
    (inputs : List String) (env : Env) (turns : List (String × String)) :
    ((flowRun matcher inputs).selected_player ≠ none →
      selStateOk (flowRun matcher inputs).conversation_state) ∧
    (∀ u m, lookupSession (agentRun env turns) u = some m →
      m.selected_player ≠ none → selStateOk m.current_state) :=
  ⟨(flowInv_flowRun matcher inputs).1,
   fun u m hm hsel => ((storeInv_agentRun env turns) u m hm).1 hsel⟩

/-- C2 counterexample: after the one-match search for Jordan followed by the
answer no, the flow sits in SHOWING_RESULTS while the selection is still the
Jordan candidate — refuting the claim that a non-null selection only occurs
in CONFIRMING_SELECTION or COMPLETED. -/
theorem C2_counterexample :
    (flowRun jordanMatcher ["Jordan", "no"]).selected_player = some jordan ∧
    (flowRun jordanMatcher ["Jordan", "no"]).conversation_state = .SHOWING_RESULTS ∧
    ¬((flowRun jordanMatcher ["Jordan", "no"]).conversation_state
        = .CONFIRMING_SELECTION ∨
      (flowRun jordanMatcher ["Jordan", "no"]).conversation_state
        = .COMPLETED) := by
  refine ⟨by decide, by decide, by decide⟩

/-- Closed witness for C2 on the concrete Jordan-then-no run. -/
theorem C2_witness :
    selStateOk (flowRun jordanMatcher ["Jordan", "no"]).conversation_state :=
  (C2_selection_state_invariant jordanMatcher ["Jordan", "no"] envJordan []).1
    (by decide)

/-- C4 (amended): every reachable SHOWING_RESULTS state of the
`PlayerSelectionFlow` machine has at least 1 candidate — not at least 2,
because rejecting an auto-selected single match with no re-enters
SHOWING_RESULTS with exactly one candidate.  Sessions driven by
`handle_message` never take that path and do keep at least 2 candidates in
SHOWING_RESULTS. -/
theorem C4_showing_results_length (matcher : String → List PlayerSearchResult)
    (inputs : List String) (env : Env) (turns : List (String × String)) :
    ((flowRun matcher inputs).conversation_state = .SHOWING_RESULTS →
      1 ≤ (flowRun matcher inputs).search_results.length) ∧
    (∀ u m, lookupSession (agentRun env turns) u = some m →
      m.current_state = .SHOWING_RESULTS → 2 ≤ m.search_results.length) :=
  ⟨fun h => (flowInv_flowRun matcher inputs).2 (Or.inl h),
   fun u m hm h => ((storeInv_agentRun env turns) u m hm).2 h⟩

/-- C4 counterexample: the Jordan-then-no run reaches SHOWING_RESULTS with a
candidate list of length 1, refuting the at-least-2 claim. -/
theorem C4_counterexample :
    (flowRun jordanMatcher ["Jordan", "no"]).conversation_state = .SHOWING_RESULTS ∧
    (flowRun jordanMatcher ["Jordan", "no"]).search_results.length = 1 ∧
    ¬ 2 ≤ (flowRun jordanMatcher ["Jordan", "no"]).search_results.length := by
  refine ⟨by decide, by decide, by decide⟩

/-- Closed witness for C4 on the concrete Jordan-then-no run. -/
theorem C4_witness :
    1 ≤ (flowRun jordanMatcher ["Jordan", "no"]).search_results.length :=
  (C4_showing_results_length jordanMatcher ["Jordan", "no"] envJordan []).1
    (by decide)

theorem getD_eq_get?_of_lt {l : List PlayerSearchResult} {k : Nat}
    (h : k < l.length) : some (l.getD k default) = l.get? k := by
  rw [List.getD_eq_getElem?_getD, List.get?_eq_getElem?]
  cases hq : l[k]? with
  | none =>
      rw [List.getElem?_eq_none_iff] at hq
      omega
  | some v => rfl

/-- C3 (amended): in SHOWING_RESULTS, an inbound text that parses as an
integer n with 1 ≤ n ≤ L selects the candidate at position n-1 in both
implementations; the `PlayerSelectionFlow` variant then moves to
CONFIRMING_SELECTION as the claim states, but the
`LangChainConversationManager` session used by `handle_message` moves
directly to COMPLETED, skipping the confirmation step. -/
theorem C3_numeric_selection (m : LangChainConversationManager)
    (f : PlayerSelectionFlow) (input : String) (n : Int)
    (_hm : m.current_state = .SHOWING_RESULTS)
    (_hf : f.conversation_state = .SHOWING_RESULTS)
    (hp : parsePyInt input = some n) (h1 : 1 ≤ n)
    (h2m : n ≤ (m.search_results.length : Int))
    (h2f : n ≤ (f.search_results.length : Int)) :
    ((m.handle_selection_state input).1.selected_player
        = m.search_results.get? ((n - 1).toNat) ∧
     (m.handle_selection_state input).1.current_state = .COMPLETED) ∧
    ((f.handle_user_selection input).1.selected_player
        = f.search_results.get? ((n - 1).toNat) ∧
     (f.handle_user_selection input).1.conversation_state
        = .CONFIRMING_SELECTION) := by
  have hkm : (n - 1).toNat < m.search_results.length := by omega
  have hkf : (n - 1).toNat < f.search_results.length := by omega
  constructor
  · unfold LangChainConversationManager.handle_selection_state
    simp only [hp]
    rw [if_pos ⟨h1, h2m⟩]
    exact ⟨getD_eq_get?_of_lt hkm, rfl⟩
  · unfold PlayerSelectionFlow.handle_user_selection
    simp only [hp]
    rw [if_pos ⟨h1, h2f⟩]
    exact ⟨getD_eq_get?_of_lt hkf, rfl⟩

/-- C3 counterexample: with a session showing two candidates, the input 1
selects the first candidate but `handle_message` leaves the session in
COMPLETED, not in CONFIRMING_SELECTION as the claim states. -/
theorem C3_counterexample :
    (sessionAfter envJordan showingStore "u" "1").map
        LangChainConversationManager.current_state = some .COMPLETED ∧
    (sessionAfter envJordan showingStore "u" "1").map
        LangChainConversationManager.current_state ≠ some .CONFIRMING_SELECTION ∧
    (sessionAfter envJordan showingStore "u" "1").map
        LangChainConversationManager.selected_player = some (some alphaOne) := by
  refine ⟨by decide, by decide, by decide⟩

/-- Closed witness for C3 at input 1 over two concrete candidates. -/
theorem C3_witness :
    ((showingManager.handle_selection_state "1").1.selected_player
        = showingManager.search_results.get? (((1 : Int) - 1).toNat) ∧
     (showingManager.handle_selection_state "1").1.current_state = .COMPLETED) ∧
    ((showingFlow.handle_user_selection "1").1.selected_player
        = showingFlow.search_results.get? (((1 : Int) - 1).toNat) ∧
     (showingFlow.handle_user_selection "1").1.conversation_state
        = .CONFIRMING_SELECTION) :=
  C3_numeric_selection showingManager showingFlow "1" 1 (by decide) (by decide)
    (by decide) (by decide) (by decide) (by decide)

theorem core_reset_search {env : Env} {store : Sessions} {u msg : String}
    {session : LangChainConversationManager}
    (h : session.current_state = .ERROR ∨
         session.current_state = .CONFIRMING_SELECTION) :
    SoccerAgent.handle_message_core env store u msg session
      = (setSession store u (SoccerAgent._handle_search_request env initManager msg).1,
         (SoccerAgent._handle_search_request env initManager msg).2) := by
  rcases h with h | h <;> simp only [SoccerAgent.handle_message_core, h] <;> rfl

theorem searching_core_fields (env : Env) (store : Sessions) (u msg : String) :
    ∃ m', lookupSession
        (SoccerAgent.handle_message_core env store u msg initManager).1 u = some m' ∧
      m'.current_state
        = (SoccerAgent._handle_search_request env initManager msg).1.current_state ∧
      m'.search_results
        = (SoccerAgent._handle_search_request env initManager msg).1.search_results ∧
      m'.selected_player
        = (SoccerAgent._handle_search_request env initManager msg).1.selected_player := by
  rcases hr : env.search (env.extractPlayerName msg) with _ | ⟨a, _ | ⟨b, t⟩⟩
  · simp only [SoccerAgent.handle_message_core, initManager, hsr_nil hr]
    simp only [List.length_nil]
    rw [if_neg (by decide)]
    rw [lookupSession_setSession_self]
    exact ⟨_, rfl, rfl, rfl, rfl⟩
  · simp only [SoccerAgent.handle_message_core, initManager, hsr_single hr]
    simp only [List.length_singleton, if_pos rfl, if_true]
    rw [lookupSession_setSession_self]
    refine ⟨_, rfl, ?_, ?_, ?_⟩
    · exact (analyze_post (by simp) rfl).1
    · exact (analyze_post (by simp) rfl).2.2
    · rw [(analyze_post (by simp) rfl).2.1]
      simp
  · simp only [SoccerAgent.handle_message_core, initManager, hsr_multi hr]
    simp only [List.length_cons]
    rw [if_neg (by omega)]
    rw [lookupSession_setSession_self]
    exact ⟨_, rfl, rfl, rfl, rfl⟩

/-- C5 (amended): a search with an empty matcher result moves the session to
ERROR with the no-players-found message; the next `handle_message` for that
user transitions the session exactly as a fresh SEARCHING session would
(same state, same candidates, same selection) — but, unlike the claim's
"behaves exactly as if reset", the outbound message and the cached report
data can differ when the new query has a single match, because the
post-ERROR path skips the automatic analysis step. -/
theorem C5_error_then_implicit_reset (env : Env) (store : Sessions)
    (u msg : String) (m : LangChainConversationManager)
    (hl : lookupSession store u = some m) :
    (m.current_state = .SEARCHING → env.search (env.extractPlayerName msg) = [] →
      agentReply env store u msg = .response msg .ERROR (.err "No players found") ∧
      (sessionAfter env store u msg).map LangChainConversationManager.current_state
        = some .ERROR) ∧
    (m.current_state = .ERROR →
      ∀ m₁ m₂, sessionAfter env store u msg = some m₁ →
        sessionAfter env (setSession store u initManager) u msg = some m₂ →
        m₁.current_state = m₂.current_state ∧
        m₁.search_results = m₂.search_results ∧
        m₁.selected_player = m₂.selected_player) := by
  constructor
  · intro hsearch hempty
    unfold agentReply sessionAfter SoccerAgent.handle_message
    rw [hl]
    simp only [SoccerAgent.handle_message_core, hsearch, hsr_nil hempty]
    simp only [List.length_nil]
    rw [if_neg (by decide)]
    refine ⟨rfl, ?_⟩
    rw [lookupSession_setSession_self]
    rfl
  · intro herr m₁ m₂ h₁ h₂
    have e₁ : SoccerAgent.handle_message env store u msg
        = SoccerAgent.handle_message_core env store u msg m := by
      unfold SoccerAgent.handle_message
      rw [hl]
    have e₂ : SoccerAgent.handle_message env (setSession store u initManager) u msg
        = SoccerAgent.handle_message_core env (setSession store u initManager)
            u msg initManager := by
      unfold SoccerAgent.handle_message
      rw [lookupSession_setSession_self]
    unfold sessionAfter at h₁ h₂
    rw [e₁, core_reset_search (Or.inl herr)] at h₁
    rw [lookupSession_setSession_self] at h₁
    cases h₁
    rw [e₂] at h₂
    obtain ⟨m', hm', hst', hres', hsel'⟩ := searching_core_fields env
      (setSession store u initManager) u msg
    rw [hm'] at h₂
    cases h₂
    exact ⟨hst'.symm, hres'.symm, hsel'.symm⟩

/-- C5 counterexample: with the session in ERROR and a following one-match
query, `handle_message` answers with the plain search response, while the
same query on a freshly reset session answers with the analysis report — the
two turns are distinguishable, so the post-ERROR turn does not behave
exactly as if the session had been reset. -/
theorem C5_counterexample :
    agentReply envJordan errorStore "u" "Jordan"
      ≠ agentReply envJordan (setSession errorStore "u" initManager) "u" "Jordan" ∧
    agentReply envJordan errorStore "u" "Jordan"
      = .response "Jordan" .COMPLETED
          (.playerFull "Jordan Smith" "FC Example" "42") ∧
    agentReply envJordan (setSession errorStore "u" initManager) "u" "Jordan"
      = .analysis "Jordan Smith" "payload" := by
  refine ⟨by decide, by decide, by decide⟩

/-- Closed witness for C5: the empty-result turn at the concrete store. -/
theorem C5_witness :
    agentReply envJordan [("u", initManager)] "u" "Zzyzx"
      = .response "Zzyzx" .ERROR (.err "No players found") ∧
    (sessionAfter envJordan [("u", initManager)] "u" "Zzyzx").map
        LangChainConversationManager.current_state = some .ERROR :=
  (C5_error_then_implicit_reset envJordan [("u", initManager)] "u" "Zzyzx"
    initManager (by decide)).1 (by decide) (by decide)

/-- C6 (amended): for every query, the empty-result outcome and the
raised-exception outcome of the matcher produce *identical* behaviour — the
matcher catches the exception and returns the empty list, so both land the
session in ERROR with the same no-players-found message.  The two outcomes
are not distinguishable by their user-facing messages. -/
theorem C6_exception_swallowed (m : LangChainConversationManager)
    (q e : String) :
    m.handle_search_state q
        (WebScraper.search_players_with_selection true q (.excRaised e))
      = m.handle_search_state q
          (WebScraper.search_players_with_selection true q (.playersList [])) ∧
    (m.handle_search_state q
        (WebScraper.search_players_with_selection true q (.excRaised e))).1.current_state
      = .ERROR ∧
    (m.handle_search_state q
        (WebScraper.search_players_with_selection true q (.excRaised e))).2
      = .response q .ERROR (.err "No players found") :=
  ⟨rfl, rfl, rfl⟩

/-- C6 counterexample: at a concrete query, the exception outcome and the
empty outcome give the same matcher result and the same outbound message —
refuting the claim that the two carry distinguishable wording. -/
theorem C6_counterexample :
    WebScraper.search_players_with_selection true "Zzyzx" (.excRaised "boom")
      = WebScraper.search_players_with_selection true "Zzyzx" (.playersList []) ∧
    (initManager.handle_search_state "Zzyzx"
        (WebScraper.search_players_with_selection true "Zzyzx" (.excRaised "boom"))).2
      = (initManager.handle_search_state "Zzyzx"
          (WebScraper.search_players_with_selection true "Zzyzx" (.playersList []))).2 := by
  refine ⟨by decide, by decide⟩
